import Mathlib

/-!
Shallow embedding of the `my-backend` Express/Mongoose application: the
image-upload lifecycle for Blog and Product resources (local-disk and
Cloudinary media stores), input validation, pagination, record deletion,
and the enquiry endpoint.

Modelling conventions:
* File-system paths are segment lists (`List String`), mirroring
  `path.join`: the JS path `public/uploads/products/f.jpg` becomes
  `["public", "uploads", "products", "f.jpg"]`.  This keeps string
  concatenation out of the proofs while preserving exactly which joined
  path each call site computes (including the mismatch between the
  directory used by the local product create route and the one probed by
  the local product delete route).
* An image reference stored in a record is likewise a segment list: the
  blog code stores the string `/uploads/<filename>` (segments
  `["uploads", f]`), the local product code stores the bare filename
  (segments `[f]`), and the Cloudinary code stores `{url, public_id}`
  pairs.
* The media store is the list of paths (or Cloudinary public ids) of the
  files that currently exist.
* Repository persistence and Cloudinary destroy calls may fail; these
  outcomes are passed in as explicit parameters/oracles
  (`SaveOutcome`, `destroyOk`), matching the places the JS code awaits a
  promise that may reject.
* HTTP statuses are plain naturals.  Each route function returns the
  status together with the poststate of the record and of the media
  store; `db = none` plays the role of "no record with this id exists".
* JS truthiness of an optional string field (`!title`) is `jsTruthy`:
  absent and empty strings are falsy.  A numeric form field (which
  arrives as a string and is coerced by `isNaN` / `<=` / `parseFloat`)
  is modelled by `JsNum`: its JS truthiness plus its numeric value as a
  rational, `none` standing for NaN.
-/

namespace MyBackend

/-- A path on disk (or below: a Cloudinary public id list), as the
segments produced by `path.join`. -/
abbrev FsPath := List String

/-- The local media store: the set of files that exist on disk, as a
list of paths. -/
abbrev Store := List FsPath

/-- JS truthiness of an optional string field: `undefined` and `""` are
falsy, every other string is truthy. -/
def jsTruthy : Option String → Bool
  | none => false
  | some s => !(s == "")

/-- A numeric form field after JS coercion: `truthy` is the truthiness
of the raw value, `num` the result of numeric coercion (`none` = NaN). -/
structure JsNum where
  truthy : Bool
  num : Option ℚ
deriving Repr, DecidableEq

/-- Truthiness of an optional numeric field. -/
def jsTruthyN : Option JsNum → Bool
  | none => false
  | some v => v.truthy

/-- `isNaN(price)` after coercion. -/
def jsIsNaN : Option JsNum → Bool
  | none => true
  | some v => v.num.isNone

/-- The numeric value of a field (`parseFloat` / comparison operand);
only meaningful when the field is not NaN. -/
def jsNumVal : Option JsNum → ℚ
  | none => 0
  | some v => v.num.getD 0

/-- Length of an optional string field (`title.length`). -/
def optLen : Option String → Nat
  | none => 0
  | some s => s.length

/-- The validation errors the two validators can produce; each is
returned to the client as a 400 with a distinct message. -/
inductive VErr where
  | required
  | titleLen
  | contentLen
  | priceRange
deriving Repr, DecidableEq

/-- `validateBlogPost` middleware: requires `title` and `content`
truthy, `3 ≤ title.length ≤ 100`, `content.length ≥ 10`. -/
def validateBlogPost (title content : Option String) : Option VErr :=
  if ¬ jsTruthy title ∨ ¬ jsTruthy content then some .required
  else if optLen title < 3 ∨ optLen title > 100 then some .titleLen
  else if optLen content < 10 then some .contentLen
  else none

/-- `validateProduct` middleware: requires `title`, `price`,
`description` truthy, `3 ≤ title.length ≤ 100`,
`description.length ≥ 10`, and `¬ isNaN(price) ∧ price > 0`. -/
def validateProduct (title : Option String) (price : Option JsNum)
    (description : Option String) : Option VErr :=
  if ¬ jsTruthy title ∨ ¬ jsTruthyN price ∨ ¬ jsTruthy description then some .required
  else if optLen title < 3 ∨ optLen title > 100 then some .titleLen
  else if optLen description < 10 then some .contentLen
  else if jsIsNaN price ∨ jsNumVal price ≤ 0 then some .priceRange
  else none

/-- `fs.existsSync`. -/
def fsExists (s : Store) (p : FsPath) : Bool := s.contains p

/-- `fs.promises.unlink`: removes the file, or rejects with ENOENT when
it does not exist. -/
def fsUnlink (s : Store) (p : FsPath) : Except Unit Store :=
  if s.contains p then .ok (s.erase p) else .error ()

/-- An `unlink` wrapped in `try { ... } catch { console.error(...) }`:
a failed unlink leaves the store unchanged and is only logged. -/
def unlinkCaught (s : Store) (p : FsPath) : Store :=
  match fsUnlink s p with
  | .ok s2 => s2
  | .error _ => s

/-- `path.join(__dirname, '../../public', ref)` for a record image
reference: prepends the `public` directory segment. -/
def joinPublic (ref : List String) : FsPath := "public" :: ref

/-- One iteration of the loop inside `cleanupUnusedImages`: join the
reference onto `public`, and if the file exists, unlink it (errors are
caught and logged). -/
def cleanupOne (s : Store) (img : List String) : Store :=
  let imagePath := joinPublic img
  if fsExists s imagePath then
    match fsUnlink s imagePath with
    | .ok s2 => s2
    | .error _ => s
  else s

/-- `cleanupUnusedImages(oldImages, newImages)`: computes
`oldImages.filter(img => !newImages.includes(img))` and deletes each of
those files from disk, skipping files that do not exist. -/
def cleanupUnusedImages (s : Store) (oldImages newImages : List (List String)) : Store :=
  (oldImages.filter (fun img => !newImages.contains img)).foldl cleanupOne s

/-- Outcome of an awaited `save()` (local product create races it
against a 30-second timer, so a timeout is one of the failure modes). -/
inductive SaveOutcome where
  | ok
  | dbError
  | timeout
deriving Repr, DecidableEq

/-- `Math.ceil(content.length / 1000)`, the blog read-time estimate. -/
def readTimeMinutes (content : String) : Nat := (content.length + 999) / 1000

/-- A Blog document. -/
structure BlogRec where
  title : String
  content : String
  category : String
  date : Nat
  readTime : String
  images : List (List String)
deriving Repr, DecidableEq

/-- The reference the blog routes store for an uploaded file:
`/uploads/<filename>`. -/
def blogRef (f : String) : List String := ["uploads", f]

/-- The disk path multer's blog storage writes to:
`public/uploads/<filename>`. -/
def blogFilePath (f : String) : FsPath := ["public", "uploads", f]

/-- `mongoose.Types.ObjectId.isValid` gate plus `findById`: a malformed
id makes `findById` reject with a CastError (`.error`), a well-formed
id resolves to the record if present. -/
def findById {α : Type} (idWellFormed : Bool) (db : Option α) : Except Unit (Option α) :=
  if idWellFormed then .ok db else .error ()

/-- `POST /` (blog): multer stores the uploaded files, the validator
runs, then the handler builds the record with `/uploads/...` references
and saves it; a save failure is answered with 400 by the catch block. -/
def blogCreate (title content category : Option String) (files : List String)
    (save : SaveOutcome) (now : Nat) (store0 : Store) :
    Nat × Option BlogRec × Store :=
  let store1 := store0 ++ files.map blogFilePath
  match validateBlogPost title content with
  | some _ => (400, none, store1)
  | none =>
    let images := files.map blogRef
    let c := content.getD ""
    if save = .ok then
      (201, some {
        title := title.getD ""
        content := c
        category := (category.getD "corporate")
        date := now
        readTime := toString (readTimeMinutes c) ++ " min read"
        images := images }, store1)
    else (400, none, store1)

/-- `PUT /:id` (blog): multer stores the new files, the validator runs,
the record is loaded, the new `/uploads/...` references are appended to
the existing image list, `cleanupUnusedImages(oldImages, blog.images)`
runs with the appended list, and the record is saved (catch → 400). -/
def blogUpdate (db : Option BlogRec) (title content category : Option String)
    (files : List String) (saveOk : Bool) (store0 : Store) :
    Nat × Option BlogRec × Store :=
  let store1 := store0 ++ files.map blogFilePath
  match validateBlogPost title content with
  | some _ => (400, db, store1)
  | none =>
    match db with
    | none => (404, none, store1)
    | some blog =>
      let newImages := files.map blogRef
      let oldImages := blog.images
      let images1 := blog.images ++ newImages
      let store2 := cleanupUnusedImages store1 oldImages images1
      if saveOk then
        let c := content.getD ""
        (200, some { blog with
          title := title.getD ""
          content := c
          category := category.getD ""
          readTime := toString (readTimeMinutes c) ++ " min read"
          images := images1 }, store2)
      else (400, db, store2)

/-- `DELETE /:id` (blog): no id-format guard — `findById` on a
malformed id throws and the catch answers 500; otherwise all images are
cleaned up via `cleanupUnusedImages(blog.images, [])` and the record is
removed. -/
def blogDelete (idWellFormed : Bool) (db : Option BlogRec) (store0 : Store) :
    Nat × Option BlogRec × Store :=
  match findById idWellFormed db with
  | .error _ => (500, db, store0)
  | .ok none => (404, none, store0)
  | .ok (some blog) =>
    let store1 := cleanupUnusedImages store0 blog.images []
    (200, none, store1)

/-- `x ? x.split(',').map(s => s.trim()) : []` for an optional comma
separated form field. -/
def splitTrim (o : Option String) : List String :=
  if jsTruthy o then ((o.getD "").splitOn ",").map String.trim else []

/-- The multipart body of the product routes (all fields arrive as
strings; `price` is additionally coerced to a number, see `JsNum`). -/
structure ProductBody where
  title : Option String
  tagline : Option String
  price : Option JsNum
  category : Option String
  description : Option String
  features : Option String
  specifications : Option String
  tags : Option String
deriving Repr, DecidableEq

/-- A Product document of the local-disk variant (`images` holds bare
filenames, as segment lists of length one). -/
structure ProductRec where
  title : String
  tagline : Option String
  price : ℚ
  category : String
  description : String
  features : List String
  specifications : List String
  tags : List String
  images : List (List String)
  createdAt : Nat
  updatedAt : Nat
deriving Repr, DecidableEq

/-- The reference the local product routes store for an uploaded file:
just the filename. -/
def prodRef (f : String) : List String := [f]

/-- The disk path multer's product storage writes to (and the create
route's compensation unlinks): `public/uploads/products/<filename>`. -/
def prodFilePath (f : String) : FsPath := ["public", "uploads", "products", f]

/-- The path the local product delete route probes for a stored
reference: `path.join(__dirname, '../../public', imagePath)`, i.e.
`public/<filename>` — note this is not the directory the create route
writes to. -/
def prodDeleteProbePath (imagePath : List String) : FsPath := joinPublic imagePath

/-- `POST /` (product, local variant): multer stores the files under
`public/uploads/products`, the validator runs, the handler saves the
record (racing a 30s timer); on any save failure every uploaded file is
unlinked (errors caught) and the status is 504 for the timeout, 500
otherwise. -/
def productCreate (body : ProductBody) (files : List String)
    (save : SaveOutcome) (now : Nat) (store0 : Store) :
    Nat × Option ProductRec × Store :=
  let store1 := store0 ++ files.map prodFilePath
  match validateProduct body.title body.price body.description with
  | some _ => (400, none, store1)
  | none =>
    let images := files.map prodRef
    match save with
    | .ok =>
      (201, some {
        title := body.title.getD ""
        tagline := body.tagline
        price := jsNumVal body.price
        category := body.category.getD ""
        description := body.description.getD ""
        features := splitTrim body.features
        specifications := splitTrim body.specifications
        tags := splitTrim body.tags
        images := images
        createdAt := now
        updatedAt := now }, store1)
    | outcome =>
      let store2 := files.foldl (fun s f => unlinkCaught s (prodFilePath f)) store1
      (if outcome = .timeout then 504 else 500, none, store2)

/-- `GET /:id` (product, local variant): 400 on a malformed id, 404
when absent, 200 otherwise. -/
def productGetLocal (idWellFormed : Bool) (db : Option ProductRec) : Nat :=
  if ¬ idWellFormed then 400
  else match db with
  | none => 404
  | some _ => 200

/-- `DELETE /:id` (product, local variant): 400 on a malformed id, 404
when absent; otherwise for each stored reference it probes
`path.join('../../public', imagePath)` (existsSync, then unlink with a
catch) and finally removes the record. -/
def productDeleteLocal (idWellFormed : Bool) (db : Option ProductRec) (store0 : Store) :
    Nat × Option ProductRec × Store :=
  if ¬ idWellFormed then (400, db, store0)
  else match db with
  | none => (404, none, store0)
  | some p =>
    let store1 := p.images.foldl (fun s imagePath =>
      let fullPath := prodDeleteProbePath imagePath
      if fsExists s fullPath then unlinkCaught s fullPath else s) store0
    (200, none, store1)

/-- `PUT /:id` (product, local variant): validator, then load; new
filenames are appended to the existing image list (no cleanup pass at
all in this route), fields are applied, `updatedAt` refreshed, and the
record saved (catch → 500). -/
def productUpdateLocal (db : Option ProductRec) (body : ProductBody)
    (files : List String) (saveOk : Bool) (now : Nat) (store0 : Store) :
    Nat × Option ProductRec × Store :=
  let store1 := store0 ++ files.map prodFilePath
  match validateProduct body.title body.price body.description with
  | some _ => (400, db, store1)
  | none =>
    match db with
    | none => (404, none, store1)
    | some p =>
      let newImages := files.map prodRef
      let updatedImages := p.images ++ newImages
      if saveOk then
        (200, some { p with
          title := body.title.getD ""
          tagline := body.tagline
          price := jsNumVal body.price
          category := body.category.getD ""
          description := body.description.getD ""
          features := splitTrim body.features
          specifications := splitTrim body.specifications
          tags := splitTrim body.tags
          images := updatedImages
          updatedAt := now }, store1)
      else (500, db, store1)

/-- Insert an element into a list that is sorted by `key` in descending
order, keeping it sorted. -/
def insertDescBy {α : Type} (key : α → Nat) (x : α) : List α → List α
  | [] => [x]
  | y :: ys => if key x ≤ key y then y :: insertDescBy key x ys else x :: y :: ys

/-- Sort a list by `key` in descending order (the repository's
`.sort({ createdAt: -1 })` / `.sort({ date: -1 })`). -/
def sortDescBy {α : Type} (key : α → Nat) (l : List α) : List α :=
  l.foldr (insertDescBy key) []

/-- The listing response `{items, currentPage, totalPages, total}`. -/
structure ListResp (α : Type) where
  items : List α
  currentPage : Nat
  totalPages : Nat
  total : Nat
deriving Repr, DecidableEq

/-- `Math.ceil(total / limit)` for naturals (the JS float division is
exact here because the result is compared as an integer page count). -/
def ceilPages (total limit : Nat) : Nat := (total + limit - 1) / limit

/-- `GET /` (product): optional category filter (falsy or `all` means
no filter), `skip = (page-1)*limit`, records sorted by `createdAt`
descending; the slice fetch and the count run as independent reads of
the same snapshot (`Promise.all`). -/
def productList (records : List ProductRec) (category : Option String)
    (page limit : Nat) : ListResp ProductRec :=
  let filtered :=
    if jsTruthy category ∧ category ≠ some "all" then
      records.filter (fun r => r.category == category.getD "")
    else records
  let skip := (page - 1) * limit
  let sorted := sortDescBy (fun r => r.createdAt) filtered
  let items := (sorted.drop skip).take limit
  let total := filtered.length
  { items := items, currentPage := page, totalPages := ceilPages total limit, total := total }

/-- `GET /` (blog): same pagination pattern over the `date` field, with
no category filter. -/
def blogList (records : List BlogRec) (page limit : Nat) : ListResp BlogRec :=
  let skip := (page - 1) * limit
  let sorted := sortDescBy (fun r => r.date) records
  let items := (sorted.drop skip).take limit
  let total := records.length
  { items := items, currentPage := page, totalPages := ceilPages total limit, total := total }

/-- A Cloudinary image reference: `{url, public_id}`. -/
structure CloudImage where
  url : String
  public_id : String
deriving Repr, DecidableEq

/-- The Cloudinary media store: the public ids of the assets that
currently exist. -/
abbrev CloudStore := List String

/-- A Product document of the Cloudinary variant. -/
structure CloudRec where
  title : String
  tagline : Option String
  price : ℚ
  category : String
  description : String
  features : List String
  specifications : List String
  tags : List String
  images : List CloudImage
  createdAt : Nat
  updatedAt : Nat
deriving Repr, DecidableEq

/-- The body of the Cloudinary product routes; `features`,
`specifications` and `tags` arrive as JSON strings and are given here
already parsed (`JSON.parse` of a well-formed array input). -/
structure CloudBody where
  title : Option String
  tagline : Option String
  price : Option JsNum
  category : Option String
  description : Option String
  features : Option (List String)
  specifications : Option (List String)
  tags : Option (List String)
deriving Repr, DecidableEq

/-- `cloudinary.uploader.destroy(pid)` under the outcome oracle
`destroyOk`: on success the asset disappears from the store, on failure
(network error, rejected promise) the store is unchanged. -/
def cloudDestroy (destroyOk : String → Bool) (s : CloudStore) (pid : String) : CloudStore :=
  if destroyOk pid then s.filter (fun q => !(q == pid)) else s

/-- One marked deletion of the Cloudinary update route: look the id up
in `product.images`; if found, `destroy` it — on success filter every
reference with that id out of the image list, on failure (the attached
`.catch`) log and keep both store and list unchanged; an id with no
matching reference is skipped. -/
def destroyMarked (destroyOk : String → Bool)
    (st : CloudStore × List CloudImage) (imgId : String) :
    CloudStore × List CloudImage :=
  match st.2.find? (fun img => img.public_id == imgId) with
  | some img =>
    if destroyOk img.public_id then
      (st.1.filter (fun q => !(q == img.public_id)),
       st.2.filter (fun i => !(i.public_id == imgId)))
    else st
  | none => st

/-- `GET /:id` (product, Cloudinary variant): 400 on a malformed id,
404 when absent, 200 otherwise. -/
def productGetCloud (idWellFormed : Bool) (db : Option CloudRec) : Nat :=
  if ¬ idWellFormed then 400
  else match db with
  | none => 404
  | some _ => 200

/-- `DELETE /:id` (product, Cloudinary variant): there is no id-format
guard, so a malformed id makes `findById` throw and the catch answers
500; otherwise every reference with a truthy `public_id` is destroyed
best-effort (each destroy carries its own `.catch`) and the record is
removed regardless of destroy failures. -/
def productDeleteCloud (idWellFormed : Bool) (db : Option CloudRec)
    (destroyOk : String → Bool) (store0 : CloudStore) :
    Nat × Option CloudRec × CloudStore :=
  match findById idWellFormed db with
  | .error _ => (500, db, store0)
  | .ok none => (404, none, store0)
  | .ok (some p) =>
    let store1 := p.images.foldl (fun s img =>
      if img.public_id ≠ "" then cloudDestroy destroyOk s img.public_id else s) store0
    (200, none, store1)

/-- `PUT /:id` (product, Cloudinary variant): validator, then load (404
when absent); the ids in `deletedImages` are destroyed best-effort and
successfully destroyed ones are filtered out of the image list; then the
new files are uploaded to Cloudinary (`uploads` are the returned
`{secure_url, public_id}` results, which join the store) and appended;
fields are applied, `updatedAt` refreshed, and the record saved.  A
save failure answers 500 and rolls nothing back: the freshly uploaded
assets stay in the Cloudinary store while the persisted record is still
the old one. -/
def productUpdateCloud (db : Option CloudRec) (body : CloudBody)
    (deletedImages : Option (List String)) (uploads : List CloudImage)
    (destroyOk : String → Bool) (saveOk : Bool) (now : Nat) (store0 : CloudStore) :
    Nat × Option CloudRec × CloudStore :=
  match validateProduct body.title body.price body.description with
  | some _ => (400, db, store0)
  | none =>
    match db with
    | none => (404, none, store0)
    | some p =>
      let st1 :=
        match deletedImages with
        | some ids => ids.foldl (destroyMarked destroyOk) (store0, p.images)
        | none => (store0, p.images)
      let store2 := st1.1 ++ uploads.map (fun u => u.public_id)
      let images2 := st1.2 ++ uploads
      if saveOk then
        (200, some { p with
          title := body.title.getD ""
          tagline := body.tagline
          price := jsNumVal body.price
          category := body.category.getD ""
          description := body.description.getD ""
          features := body.features.getD []
          specifications := body.specifications.getD []
          tags := body.tags.getD []
          images := images2
          updatedAt := now }, store2)
      else (500, some p, store2)

/-- The enquiry endpoint's response: the HTTP status, and whether
execution reached the `transporter.sendMail` call. -/
structure EnquiryResult where
  status : Nat
  attemptedSend : Bool
deriving Repr, DecidableEq

/-- `POST /enquiry`: the required-field check runs only when `formType`
is exactly `contact` or exactly `enquiry`; then the email configuration
is verified (500 when missing) and the mail is sent (200 on success,
500 on an SMTP/auth/network failure). -/
def enquiryHandler (formType name email phone message : Option String)
    (emailConfigured : Bool) (sendOk : Bool) : EnquiryResult :=
  let missing := !(jsTruthy name) || !(jsTruthy email) || !(jsTruthy phone) || !(jsTruthy message)
  if formType = some "contact" ∧ missing then ⟨400, false⟩
  else if formType = some "enquiry" ∧ missing then ⟨400, false⟩
  else if ¬ emailConfigured then ⟨500, false⟩
  else if sendOk then ⟨200, true⟩ else ⟨500, true⟩

/-! Helper lemmas about the embedded operations. -/

/-- `unlinkCaught` either erases an existing file or leaves the store
unchanged. -/
lemma unlinkCaught_eq (s : Store) (p : FsPath) :
    unlinkCaught s p = if p ∈ s then s.erase p else s := by
  unfold unlinkCaught fsUnlink
  by_cases h : p ∈ s <;> simp [h]

/-- Unlinking, in order, a block of fresh distinct files that was
appended to a store restores the original store. -/
lemma foldl_unlink_restore (paths : List FsPath) (s0 : Store)
    (hnd : paths.Nodup) (hfresh : ∀ p ∈ paths, p ∉ s0) :
    paths.foldl unlinkCaught (s0 ++ paths) = s0 := by
  induction paths generalizing s0 with
  | nil => simp
  | cons p rest ih =>
    have hps : p ∉ s0 := hfresh p (List.mem_cons_self p rest)
    have hstep : unlinkCaught (s0 ++ p :: rest) p = s0 ++ rest := by
      rw [unlinkCaught_eq, if_pos (by simp)]
      rw [List.erase_append_right _ hps, List.erase_cons_head]
    rw [List.foldl_cons, hstep]
    exact ih s0 hnd.of_cons (fun q hq => hfresh q (List.mem_cons_of_mem p hq))

/-- When every old image still appears in the new list, the cleanup
pass deletes nothing. -/
lemma cleanup_superset_noop (s : Store) (old extra : List (List String)) :
    cleanupUnusedImages s old (old ++ extra) = s := by
  unfold cleanupUnusedImages
  have hnil : old.filter (fun img => !(old ++ extra).contains img) = [] := by
    apply List.filter_eq_nil_iff.mpr
    intro img himg
    simp [List.mem_append, himg]
  rw [hnil]
  rfl

/-- Cleaning up a reference whose file is already missing leaves the
store unchanged (the `existsSync` guard makes the unlink a no-op, and
no error is raised). -/
lemma cleanupOne_not_mem (s : Store) (img : List String)
    (h : joinPublic img ∉ s) : cleanupOne s img = s := by
  unfold cleanupOne fsExists
  simp [h]

/-- The image list after processing a whole `deletedImages` batch: each
reference survives unless its id was marked and its destroy succeeded.
In particular the per-id attempts are independent: one failed destroy
does not affect the treatment of any other id. -/
lemma destroyMarked_fold_images (ok : String → Bool) (ids : List String) :
    ∀ (st : CloudStore × List CloudImage),
    (ids.foldl (destroyMarked ok) st).2
      = st.2.filter (fun r => !(ids.contains r.public_id && ok r.public_id)) := by
  induction ids with
  | nil => intro st; simp
  | cons i rest ih =>
    intro st
    rw [List.foldl_cons, ih]
    cases hfind : st.2.find? (fun img => img.public_id == i) with
    | none =>
      have hnone : ∀ r ∈ st.2, (r.public_id == i) = false := by
        intro r hr
        simpa using List.find?_eq_none.mp hfind r hr
      simp only [destroyMarked, hfind]
      apply List.filter_congr
      intro r hr
      have hne : r.public_id ≠ i := by simpa using hnone r hr
      simp [List.contains_cons, hne]
    | some img =>
      have himgeq : img.public_id = i := by
        have := List.find?_some hfind
        simpa using this
      by_cases hok : ok img.public_id = true
      · simp only [destroyMarked, hfind, hok, if_pos]
        rw [List.filter_filter]
        apply List.filter_congr
        intro r hr
        by_cases hri : r.public_id = i
        · have hoki : ok i = true := himgeq ▸ hok
          simp [List.contains_cons, hri, hoki]
        · simp [List.contains_cons, hri, (by simpa using hri : (r.public_id == i) = false)]
      · have hokf : ok img.public_id = false := Bool.eq_false_iff.mpr hok
        have hoki : ok i = false := himgeq ▸ hokf
        simp only [destroyMarked, hfind, hokf, Bool.false_eq_true, if_neg, not_false_iff]
        apply List.filter_congr
        intro r hr
        by_cases hri : r.public_id = i
        · simp [List.contains_cons, hri, hoki]
        · simp [List.contains_cons, hri, (by simpa using hri : (r.public_id == i) = false)]

/-- One marked deletion preserves "every remaining reference has its
asset in the store". -/
lemma destroyMarked_refsOK (ok : String → Bool)
    (st : CloudStore × List CloudImage) (i : String)
    (h : ∀ r ∈ st.2, r.public_id ∈ st.1) :
    ∀ r ∈ (destroyMarked ok st i).2, r.public_id ∈ (destroyMarked ok st i).1 := by
  unfold destroyMarked
  cases hfind : st.2.find? (fun img => img.public_id == i) with
  | none => simpa using h
  | some img =>
    have himgeq : img.public_id = i := by
      have := List.find?_some hfind
      simpa using this
    by_cases hok : ok img.public_id = true
    · simp only [hok, if_pos]
      intro r hr
      rw [List.mem_filter] at hr
      rw [List.mem_filter]
      refine ⟨h r hr.1, ?_⟩
      rw [himgeq]
      exact hr.2
    · have hokf : ok img.public_id = false := Bool.eq_false_iff.mpr hok
      simp only [hokf, Bool.false_eq_true, if_neg, not_false_iff]
      exact h

/-- The whole `deletedImages` batch preserves "every remaining
reference has its asset in the store". -/
lemma destroyMarked_fold_refsOK (ok : String → Bool) (ids : List String) :
    ∀ (st : CloudStore × List CloudImage),
    (∀ r ∈ st.2, r.public_id ∈ st.1) →
    ∀ r ∈ (ids.foldl (destroyMarked ok) st).2,
      r.public_id ∈ (ids.foldl (destroyMarked ok) st).1 := by
  induction ids with
  | nil => intro st h; simpa using h
  | cons i rest ih =>
    intro st h
    rw [List.foldl_cons]
    exact ih (destroyMarked ok st i) (destroyMarked_refsOK ok st i h)

/-- Inserting into a descending-sorted list yields a permutation of the
cons. -/
lemma insertDescBy_perm {α : Type} (key : α → Nat) (x : α) (l : List α) :
    (insertDescBy key x l).Perm (x :: l) := by
  induction l with
  | nil => simp [insertDescBy]
  | cons y ys ih =>
    unfold insertDescBy
    by_cases h : key x ≤ key y
    · simp only [h, if_pos]
      exact (ih.cons y).trans (List.Perm.swap x y ys)
    · simp [h]

/-- Sorting is a permutation of the input. -/
lemma sortDescBy_perm {α : Type} (key : α → Nat) (l : List α) :
    (sortDescBy key l).Perm l := by
  induction l with
  | nil => simp [sortDescBy]
  | cons x xs ih =>
    have : sortDescBy key (x :: xs) = insertDescBy key x (sortDescBy key xs) := rfl
    rw [this]
    exact (insertDescBy_perm key x (sortDescBy key xs)).trans (ih.cons x)

/-- Inserting into a descending-sorted list keeps it descending. -/
lemma insertDescBy_sorted {α : Type} (key : α → Nat) (x : α) (l : List α)
    (h : l.Pairwise (fun a b => key b ≤ key a)) :
    (insertDescBy key x l).Pairwise (fun a b => key b ≤ key a) := by
  induction l with
  | nil => simp [insertDescBy]
  | cons y ys ih =>
    rw [List.pairwise_cons] at h
    unfold insertDescBy
    by_cases hxy : key x ≤ key y
    · simp only [hxy, if_pos]
      rw [List.pairwise_cons]
      refine ⟨?_, ih h.2⟩
      intro z hz
      rcases List.mem_cons.mp ((insertDescBy_perm key x ys).mem_iff.mp hz) with hzx | hzy
      · exact hzx ▸ hxy
      · exact h.1 z hzy
    · simp only [hxy, if_neg, not_false_iff]
      rw [List.pairwise_cons]
      refine ⟨?_, List.pairwise_cons.mpr h⟩
      intro z hz
      rcases List.mem_cons.mp hz with hzy | hzys
      · exact hzy ▸ Nat.le_of_lt (Nat.lt_of_not_le hxy)
      · exact Nat.le_trans (h.1 z hzys) (Nat.le_of_lt (Nat.lt_of_not_le hxy))

/-- The sort produces a list that is descending in the key. -/
lemma sortDescBy_sorted {α : Type} (key : α → Nat) (l : List α) :
    (sortDescBy key l).Pairwise (fun a b => key b ≤ key a) := by
  induction l with
  | nil => simp [sortDescBy]
  | cons x xs ih => exact insertDescBy_sorted key x (sortDescBy key xs) ih

/-- `Math.ceil(total/limit)` never undercounts: all records fit in
`totalPages` pages. -/
lemma le_ceilPages_mul (total limit : Nat) (h : 0 < limit) :
    total ≤ ceilPages total limit * limit := by
  have hle := le_smul_ceilDiv (b := total) h
  rw [smul_eq_mul] at hle
  calc total ≤ limit * (total ⌈/⌉ limit) := hle
    _ = ceilPages total limit * limit := by
        rw [Nat.ceilDiv_eq_add_pred_div, Nat.mul_comm]; rfl

/-- `Math.ceil(total/limit)` never overcounts: dropping the last page
leaves fewer than `total` records, i.e. `totalPages` is minimal. -/
lemma ceilPages_mul_lt (total limit : Nat) (h : 0 < limit) :
    ceilPages total limit * limit < total + limit := by
  have hdm : ceilPages total limit * limit ≤ total + limit - 1 :=
    Nat.div_mul_le_self (total + limit - 1) limit
  omega

/-- Characterization of when `validateBlogPost` passes. -/
lemma validateBlogPost_eq_none_iff (title content : Option String) :
    validateBlogPost title content = none ↔
      (jsTruthy title = true ∧ jsTruthy content = true ∧
       3 ≤ optLen title ∧ optLen title ≤ 100 ∧ 10 ≤ optLen content) := by
  unfold validateBlogPost
  split_ifs with h1 h2 h3
  · constructor
    · intro h; exact absurd h (by simp)
    · rintro ⟨ht, hc, _⟩
      rcases h1 with h | h <;> simp_all
  · constructor
    · intro h; exact absurd h (by simp)
    · rintro ⟨_, _, hA, hB, _⟩
      rcases h2 with h | h <;> omega
  · constructor
    · intro h; exact absurd h (by simp)
    · rintro ⟨_, _, _, _, hC⟩
      omega
  · push_neg at h1 h2
    constructor
    · intro _
      exact ⟨by simpa using h1.1, by simpa using h1.2, by omega, by omega, by omega⟩
    · intro _; rfl

/-- Characterization of when `validateProduct` passes. -/
lemma validateProduct_eq_none_iff (title : Option String) (price : Option JsNum)
    (description : Option String) :
    validateProduct title price description = none ↔
      (jsTruthy title = true ∧ jsTruthyN price = true ∧ jsTruthy description = true ∧
       3 ≤ optLen title ∧ optLen title ≤ 100 ∧ 10 ≤ optLen description ∧
       jsIsNaN price = false ∧ 0 < jsNumVal price) := by
  unfold validateProduct
  split_ifs with h1 h2 h3 h4
  · constructor
    · intro h; exact absurd h (by simp)
    · rintro ⟨ht, hp, hd, _⟩
      rcases h1 with h | h | h <;> simp_all
  · constructor
    · intro h; exact absurd h (by simp)
    · rintro ⟨_, _, _, hA, hB, _⟩
      rcases h2 with h | h <;> omega
  · constructor
    · intro h; exact absurd h (by simp)
    · rintro ⟨_, _, _, _, _, hC, _⟩
      omega
  · constructor
    · intro h; exact absurd h (by simp)
    · rintro ⟨_, _, _, _, _, _, hnan, hpos⟩
      rcases h4 with h | h
      · simp_all
      · exact absurd hpos (not_lt.mpr h)
  · push_neg at h1 h2
    constructor
    · intro _
      rw [not_or] at h4
      refine ⟨by simpa using h1.1, by simpa using h1.2.1, by simpa using h1.2.2,
        by omega, by omega, by omega, ?_, ?_⟩
      · simpa using h4.1
      · exact lt_of_not_le h4.2
    · intro _; rfl

/-- `cleanupOne` erases the referenced file when it exists and is a
no-op otherwise. -/
lemma cleanupOne_eq (s : Store) (img : List String) :
    cleanupOne s img = if joinPublic img ∈ s then s.erase (joinPublic img) else s := by
  unfold cleanupOne fsExists fsUnlink
  by_cases h : joinPublic img ∈ s <;> simp [h]

/-- `cleanupOne` never adds files. -/
lemma cleanupOne_subset (s : Store) (img : List String) :
    ∀ p ∈ cleanupOne s img, p ∈ s := by
  intro p hp
  rw [cleanupOne_eq] at hp
  by_cases h : joinPublic img ∈ s
  · rw [if_pos h] at hp
    exact List.erase_subset _ _ hp
  · rwa [if_neg h] at hp

/-- A whole cleanup fold never adds files. -/
lemma foldl_cleanupOne_subset (l : List (List String)) :
    ∀ (s : Store), ∀ p ∈ l.foldl cleanupOne s, p ∈ s := by
  induction l with
  | nil => intro s p hp; simpa using hp
  | cons x xs ih =>
    intro s p hp
    rw [List.foldl_cons] at hp
    exact cleanupOne_subset s x p (ih (cleanupOne s x) p hp)

/-- `cleanupOne` preserves freedom from duplicates. -/
lemma cleanupOne_nodup (s : Store) (img : List String) (h : s.Nodup) :
    (cleanupOne s img).Nodup := by
  rw [cleanupOne_eq]
  by_cases hm : joinPublic img ∈ s
  · rw [if_pos hm]
    exact h.erase (joinPublic img)
  · rwa [if_neg hm]

/-- After `cleanupOne s img` on a duplicate-free store, `img`-s file is
gone. -/
lemma cleanupOne_removes (s : Store) (img : List String) (h : s.Nodup) :
    joinPublic img ∉ cleanupOne s img := by
  rw [cleanupOne_eq]
  by_cases hm : joinPublic img ∈ s
  · rw [if_pos hm]
    intro hcon
    exact ((List.Nodup.mem_erase_iff h).mp hcon).1 rfl
  · rwa [if_neg hm]

/-- A file whose reference is in the delete set of a cleanup fold is
gone afterwards (for a duplicate-free store). -/
lemma cleanup_fold_deletes (l : List (List String)) :
    ∀ (s : Store), s.Nodup → ∀ img ∈ l, joinPublic img ∉ l.foldl cleanupOne s := by
  induction l with
  | nil => intro s _ img h; exact absurd h (List.not_mem_nil img)
  | cons x xs ih =>
    intro s hnd img himg
    rw [List.foldl_cons]
    rcases List.mem_cons.mp himg with hx | hxs
    · subst hx
      intro hcon
      exact cleanupOne_removes s img hnd
        (foldl_cleanupOne_subset xs (cleanupOne s img) _ hcon)
    · exact ih (cleanupOne s x) (cleanupOne_nodup s x hnd) img hxs

/-- A file different from a cleanup step's target survives the step. -/
lemma cleanupOne_mem_of_ne (s : Store) (x : List String) (p : FsPath)
    (hxp : joinPublic x ≠ p) (hp : p ∈ s) : p ∈ cleanupOne s x := by
  rw [cleanupOne_eq]
  by_cases hm : joinPublic x ∈ s
  · rw [if_pos hm]
    exact (List.mem_erase_of_ne (Ne.symm hxp)).mpr hp
  · rwa [if_neg hm]

/-- A file none of whose deletable references point at it survives a
cleanup fold. -/
lemma cleanup_fold_keeps (l : List (List String)) :
    ∀ (s : Store) (p : FsPath), p ∈ s → (∀ img ∈ l, joinPublic img ≠ p) →
      p ∈ l.foldl cleanupOne s := by
  induction l with
  | nil => intro s p hp _; simpa using hp
  | cons x xs ih =>
    intro s p hp hne
    rw [List.foldl_cons]
    exact ih (cleanupOne s x) p
      (cleanupOne_mem_of_ne s x p (hne x (List.mem_cons_self x xs)) hp)
      (fun img h => hne img (List.mem_cons_of_mem x h))

/-! Concrete fixtures used by the witnesses and counterexamples. -/

/-- The form value `"0.01"`: truthy, numeric value 1/100 (built with
the explicit constructor so that proofs can evaluate it). -/
def goodPrice : Option JsNum :=
  some ⟨true, some (Rat.mk' 1 100 (by decide) (Nat.coprime_one_left 100))⟩

/-- The form value `"0"`: a non-empty string is truthy, and coerces to
the number 0. -/
def zeroPrice : Option JsNum := some ⟨true, some 0⟩

/-- A ten-character description/content. -/
def descTen : Option String := some "0123456789"

/-- A valid product body at the validation boundaries. -/
def prodBodyOk : ProductBody :=
  { title := some "abc", tagline := none, price := goodPrice, category := some "cat"
    description := descTen, features := none, specifications := none, tags := none }

/-- The same body with a two-character title (fails validation). -/
def prodBodyShortTitle : ProductBody := { prodBodyOk with title := some "ab" }

/-- A valid Cloudinary product body. -/
def cloudBodyOk : CloudBody :=
  { title := some "abc", tagline := none, price := goodPrice, category := some "cat"
    description := descTen, features := none, specifications := none, tags := none }

/-- A local product whose record references files `a.jpg` and `b.jpg`. -/
def prodRecAB : ProductRec :=
  { title := "t", tagline := none, price := 1, category := "c", description := "d"
    features := [], specifications := [], tags := []
    images := [prodRef "a.jpg", prodRef "b.jpg"], createdAt := 0, updatedAt := 0 }

/-- A store holding only `a.jpg`-s real file
(`public/uploads/products/a.jpg`); `b.jpg`-s file is absent. -/
def storeProdA : Store := [prodFilePath "a.jpg"]

/-- A Cloudinary product referencing assets `pidA` and `pidB`. -/
def cloudRecAB : CloudRec :=
  { title := "t", tagline := none, price := 1, category := "c", description := "d"
    features := [], specifications := [], tags := []
    images := [⟨"uA", "pidA"⟩, ⟨"uB", "pidB"⟩], createdAt := 0, updatedAt := 0 }

/-- Destroy oracle under which only `pidA` can be destroyed (the call
for the already-absent `pidB` fails). -/
def destroyOkA : String → Bool := fun s => s == "pidA"

/-- Destroy oracle under which every destroy succeeds. -/
def okAll : String → Bool := fun _ => true

/-- A blog whose record references `a.jpg`, `b.jpg`, `c.jpg`. -/
def blogRecABC : BlogRec :=
  { title := "t", content := "contentcontent", category := "x", date := 0
    readTime := "", images := [blogRef "a.jpg", blogRef "b.jpg", blogRef "c.jpg"] }

/-- The matching store: all three blog files exist. -/
def storeBlogABC : Store :=
  [blogFilePath "a.jpg", blogFilePath "b.jpg", blogFilePath "c.jpg"]

/-! Claim theorems. -/

/-- Claim C7: validation boundaries.  A title of length 2 is always
rejected while length 3 (and up to 100) passes with otherwise-valid
fields; a 9-character description/content is always rejected while 10
characters pass; the price `0` is always rejected while `0.01` passes
(the accepted concrete payloads use price `0.01`). -/
theorem validation_boundaries :
    (∀ (t : String), t.length = 2 →
      ∀ p d, validateProduct (some t) p d ≠ none) ∧
    validateProduct (some "abc") goodPrice descTen = none ∧
    validateProduct (some (String.mk (List.replicate 100 (Char.ofNat 97)))) goodPrice descTen = none ∧
    (∀ t p (d : String), d.length = 9 → validateProduct t p (some d) ≠ none) ∧
    (∀ t d, validateProduct t zeroPrice d ≠ none) ∧
    (∀ (t : String), t.length = 2 → ∀ c, validateBlogPost (some t) c ≠ none) ∧
    validateBlogPost (some "abc") descTen = none ∧
    (∀ t (c : String), c.length = 9 → validateBlogPost t (some c) ≠ none) := by
  refine ⟨?_, by decide, by decide, ?_, ?_, ?_, by decide, ?_⟩
  · intro t ht p d h
    rw [validateProduct_eq_none_iff] at h
    have : optLen (some t) = 2 := ht
    omega
  · intro t p d hd h
    rw [validateProduct_eq_none_iff] at h
    have : optLen (some d) = 9 := hd
    omega
  · intro t d h
    rw [validateProduct_eq_none_iff] at h
    have : jsNumVal zeroPrice = 0 := rfl
    have hpos := h.2.2.2.2.2.2.2
    rw [this] at hpos
    exact lt_irrefl 0 hpos
  · intro t ht c h
    rw [validateBlogPost_eq_none_iff] at h
    have : optLen (some t) = 2 := ht
    omega
  · intro t c hc h
    rw [validateBlogPost_eq_none_iff] at h
    have : optLen (some c) = 9 := hc
    omega

/-- Witness for C7: the boundary rejections evaluated at the concrete
inputs `"ab"` (title), `"012345678"` (description/content) and price
`"0"`. -/
theorem validation_boundaries_witness :
    validateProduct (some "ab") goodPrice descTen ≠ none ∧
    validateProduct (some "abc") goodPrice (some "012345678") ≠ none ∧
    validateProduct (some "abc") zeroPrice descTen ≠ none ∧
    validateBlogPost (some "ab") descTen ≠ none ∧
    validateBlogPost (some "abc") (some "012345678") ≠ none :=
  ⟨validation_boundaries.1 "ab" (by decide) goodPrice descTen,
   validation_boundaries.2.2.2.1 (some "abc") goodPrice "012345678" (by decide),
   validation_boundaries.2.2.2.2.1 (some "abc") descTen,
   validation_boundaries.2.2.2.2.2.1 "ab" (by decide) descTen,
   validation_boundaries.2.2.2.2.2.2.2 (some "abc") "012345678" (by decide)⟩

/-- Claim C10: the enquiry endpoint's required-field check runs only
for `formType` exactly `contact` or exactly `enquiry`; any other (or
absent) `formType` is never rejected with 400 even with every field
missing, and proceeds to the mail-send step when the mailer is
configured. -/
theorem enquiry_formtype_validation_skip :
    (∀ (ft name email phone message : Option String) (cfg sendOk : Bool),
      ft ≠ some "contact" → ft ≠ some "enquiry" →
      (enquiryHandler ft name email phone message cfg sendOk).status ≠ 400) ∧
    enquiryHandler (some "wholesale") none none none none true true = ⟨200, true⟩ ∧
    enquiryHandler none none none none none true true = ⟨200, true⟩ := by
  refine ⟨?_, by decide, by decide⟩
  intro ft n e p m cfg s hc he
  simp only [enquiryHandler]
  rw [if_neg (fun h => hc h.1), if_neg (fun h => he h.1)]
  split_ifs <;> decide

/-- Witness for C10: a `wholesale` form with all required fields
missing and an unconfigured mailer is still not a 400. -/
theorem enquiry_formtype_validation_skip_witness :
    (enquiryHandler (some "wholesale") none none none none false false).status ≠ 400 :=
  enquiry_formtype_validation_skip.1 (some "wholesale") none none none none false false
    (by decide) (by decide)

/-- Claim C8 counterexample: the Cloudinary `DELETE /:id` has no
id-format guard, so a malformed id reaches `findById`, throws, and the
route answers 500 — not the claimed 400. -/
theorem cloud_delete_invalid_id_returns_500 :
    (productDeleteCloud false (some cloudRecAB) okAll ["pidA", "pidB"]).1 = 500 ∧
    (500 : Nat) ≠ 400 := by
  exact ⟨rfl, by decide⟩

/-- Claim C8 (amended): the local-variant `GET /:id` and `DELETE /:id`
and the Cloudinary `GET /:id` answer 400 on a malformed id (without
touching the store), but the Cloudinary `DELETE /:id` and the blog
`DELETE /:id` lack the format check and answer 500. -/
theorem invalid_id_format_amended :
    (∀ (db : Option ProductRec), productGetLocal false db = 400) ∧
    (∀ (db : Option ProductRec) (s : Store),
      (productDeleteLocal false db s).1 = 400 ∧ (productDeleteLocal false db s).2.2 = s) ∧
    (∀ (db : Option CloudRec), productGetCloud false db = 400) ∧
    (∀ (db : Option CloudRec) (ok : String → Bool) (s : CloudStore),
      (productDeleteCloud false db ok s).1 = 500) ∧
    (∀ (db : Option BlogRec) (s : Store), (blogDelete false db s).1 = 500) := by
  refine ⟨fun db => rfl, fun db s => ⟨rfl, rfl⟩, fun db => rfl,
    fun db ok s => rfl, fun db s => rfl⟩

/-- Claim C5, evaluated: deleting a local product whose record
references `a.jpg` and `b.jpg`, with only `a.jpg`-s file on disk,
answers 200 and removes the record — but `a.jpg`-s file survives,
because the route probes `public/a.jpg` while the file lives at
`public/uploads/products/a.jpg`.  The Cloudinary variant behaves as
claimed: with `pidB`-s destroy failing, the delete still succeeds,
destroys `pidA`, and removes the record. -/
theorem delete_route_image_cleanup_eval :
    productDeleteLocal true (some prodRecAB) storeProdA = (200, none, storeProdA) ∧
    prodFilePath "a.jpg" ∈ storeProdA ∧
    prodRef "a.jpg" ∈ prodRecAB.images ∧
    productDeleteCloud true (some cloudRecAB) destroyOkA ["pidA"] = (200, none, []) := by
  exact ⟨by decide, by decide, by decide, by decide⟩

/-- Claim C2 counterexample: on the blog update route the caller
cannot replace the image list — uploaded files are appended.  With old
list `[a,b,c]` and `d.jpg` newly uploaded, the stored list is
`[a,b,c,d]` (not `[b,c,d]`) and `a.jpg`-s file is still on disk. -/
theorem blog_update_append_counterexample :
    ((blogUpdate (some blogRecABC) (some "ttt") descTen (some "x") ["d.jpg"] true
        storeBlogABC).2.1).map BlogRec.images
      = some [blogRef "a.jpg", blogRef "b.jpg", blogRef "c.jpg", blogRef "d.jpg"] ∧
    ((blogUpdate (some blogRecABC) (some "ttt") descTen (some "x") ["d.jpg"] true
        storeBlogABC).2.1).map BlogRec.images
      ≠ some [blogRef "b.jpg", blogRef "c.jpg", blogRef "d.jpg"] ∧
    blogFilePath "a.jpg" ∈ (blogUpdate (some blogRecABC) (some "ttt") descTen (some "x")
        ["d.jpg"] true storeBlogABC).2.2 := by
  exact ⟨by decide, by decide, by decide⟩

/-- Claim C2 (amended): the blog update appends uploaded images to the
old list and its cleanup pass receives the appended superset, so it
deletes nothing; the helper `cleanupUnusedImages` itself does delete
exactly `oldImages − newImages` (deleted references-s files are gone,
unrelated files survive), and cleaning up a reference whose file is
already missing is a harmless no-op. -/
theorem blog_update_cleanup_amended :
    (∀ (blog : BlogRec) (t c cat : Option String) (files : List String) (s0 : Store),
      validateBlogPost t c = none →
      (blogUpdate (some blog) t c cat files true s0).1 = 200 ∧
      ((blogUpdate (some blog) t c cat files true s0).2.1).map BlogRec.images
        = some (blog.images ++ files.map blogRef) ∧
      (blogUpdate (some blog) t c cat files true s0).2.2 = s0 ++ files.map blogFilePath) ∧
    (∀ (s : Store) (old new : List (List String)) (img : List String),
      s.Nodup → img ∈ old → ¬ img ∈ new →
      joinPublic img ∉ cleanupUnusedImages s old new) ∧
    (∀ (s : Store) (old new : List (List String)) (p : FsPath),
      p ∈ s → (∀ img ∈ old, ¬ img ∈ new → joinPublic img ≠ p) →
      p ∈ cleanupUnusedImages s old new) ∧
    (∀ (s : Store) (img : List String), joinPublic img ∉ s → cleanupOne s img = s) ∧
    cleanupUnusedImages storeBlogABC
      [blogRef "a.jpg", blogRef "b.jpg", blogRef "c.jpg"]
      [blogRef "b.jpg", blogRef "c.jpg", blogRef "d.jpg"]
      = [blogFilePath "b.jpg", blogFilePath "c.jpg"] := by
  refine ⟨?_, ?_, ?_, cleanupOne_not_mem, by decide⟩
  · intro blog t c cat files s0 hv
    unfold blogUpdate
    rw [hv]
    simp only []
    rw [cleanup_superset_noop]
    exact ⟨rfl, rfl, rfl⟩
  · intro s old new img hnd himg hnew
    unfold cleanupUnusedImages
    apply cleanup_fold_deletes _ s hnd
    rw [List.mem_filter]
    refine ⟨himg, ?_⟩
    simpa using hnew
  · intro s old new p hp hne
    unfold cleanupUnusedImages
    apply cleanup_fold_keeps _ s p hp
    intro img himg
    rw [List.mem_filter] at himg
    refine hne img himg.1 ?_
    intro hcon
    have hc1 : new.contains img = true := List.elem_iff.mpr hcon
    have hc2 : new.contains img = false := by simpa using himg.2
    rw [hc1] at hc2
    exact Bool.noConfusion hc2

/-- Witness for the amended C2: the concrete blog update with old list
`[a,b,c]` and upload `d.jpg`, and the concrete deleted-file fact. -/
theorem blog_update_cleanup_amended_witness :
    (blogUpdate (some blogRecABC) (some "ttt") descTen (some "x") ["d.jpg"] true
        storeBlogABC).1 = 200 ∧
    joinPublic (blogRef "a.jpg") ∉ cleanupUnusedImages storeBlogABC
      [blogRef "a.jpg", blogRef "b.jpg", blogRef "c.jpg"]
      [blogRef "b.jpg", blogRef "c.jpg", blogRef "d.jpg"] :=
  ⟨(blog_update_cleanup_amended.1 blogRecABC (some "ttt") descTen (some "x") ["d.jpg"]
      storeBlogABC (by decide)).1,
   blog_update_cleanup_amended.2.1 storeBlogABC
      [blogRef "a.jpg", blogRef "b.jpg", blogRef "c.jpg"]
      [blogRef "b.jpg", blogRef "c.jpg", blogRef "d.jpg"]
      (blogRef "a.jpg") (by decide) (by decide) (by decide)⟩

/-- Claim C3 counterexample: the multipart middleware `upload.array`
runs before `validateProduct` (it must — validation reads the parsed
body), so an invalid create request that carries a file answers 400
with the file already persisted in the store. -/
theorem validation_after_upload_counterexample :
    (productCreate prodBodyShortTitle ["f.jpg"] .ok 5 []).1 = 400 ∧
    prodFilePath "f.jpg" ∈ (productCreate prodBodyShortTitle ["f.jpg"] .ok 5 []).2.2 := by
  exact ⟨by decide, by decide⟩

/-- Claim C3 (amended): a validation failure is answered 400 before any
handler-level storage side effect — no record is persisted and no
cleanup runs (nothing is deleted) — but the files of a multipart
request have already been stored by the upload middleware and remain in
the store. -/
theorem validation_no_cleanup_amended :
    (∀ (body : ProductBody) (files : List String) (save : SaveOutcome) (now : Nat) (s0 : Store),
      validateProduct body.title body.price body.description ≠ none →
      (productCreate body files save now s0).1 = 400 ∧
      (productCreate body files save now s0).2.1 = none ∧
      (productCreate body files save now s0).2.2 = s0 ++ files.map prodFilePath) ∧
    (∀ (t c cat : Option String) (files : List String) (save : SaveOutcome) (now : Nat) (s0 : Store),
      validateBlogPost t c ≠ none →
      (blogCreate t c cat files save now s0).1 = 400 ∧
      (blogCreate t c cat files save now s0).2.1 = none ∧
      (blogCreate t c cat files save now s0).2.2 = s0 ++ files.map blogFilePath) := by
  constructor
  · intro body files save now s0 hv
    unfold productCreate
    cases h : validateProduct body.title body.price body.description with
    | none => exact absurd h hv
    | some e => exact ⟨rfl, rfl, rfl⟩
  · intro t c cat files save now s0 hv
    unfold blogCreate
    cases h : validateBlogPost t c with
    | none => exact absurd h hv
    | some e => exact ⟨rfl, rfl, rfl⟩

/-- Witness for the amended C3: the two-character-title create with one
file attached. -/
theorem validation_no_cleanup_amended_witness :
    (productCreate prodBodyShortTitle ["f.jpg"] .ok 5 []).2.1 = none ∧
    (productCreate prodBodyShortTitle ["f.jpg"] .ok 5 []).2.2 = [prodFilePath "f.jpg"] :=
  ⟨(validation_no_cleanup_amended.1 prodBodyShortTitle ["f.jpg"] .ok 5 [] (by decide)).2.1,
   (validation_no_cleanup_amended.1 prodBodyShortTitle ["f.jpg"] .ok 5 [] (by decide)).2.2⟩

/-- Claim C4: create-failure compensation.  When the local product
create passes validation, stores K distinct fresh files, and the save
fails (timeout → 504, any other persistence error → 500), every file
uploaded in the request is unlinked and the store returns exactly to
its pre-request state: zero orphaned files, no record persisted. -/
theorem create_failure_compensation :
    ∀ (body : ProductBody) (files : List String) (save : SaveOutcome) (now : Nat) (s0 : Store),
      validateProduct body.title body.price body.description = none →
      save ≠ .ok →
      files.Nodup →
      (∀ f ∈ files, prodFilePath f ∉ s0) →
      (productCreate body files save now s0).1 = (if save = .timeout then 504 else 500) ∧
      (productCreate body files save now s0).2.1 = none ∧
      (productCreate body files save now s0).2.2 = s0 ∧
      ∀ f ∈ files, prodFilePath f ∉ (productCreate body files save now s0).2.2 := by
  intro body files save now s0 hv hsave hnd hfresh
  have hpathsnd : (files.map prodFilePath).Nodup := by
    refine hnd.map ?_
    intro a b h
    simpa [prodFilePath] using h
  have hpathsfresh : ∀ p ∈ files.map prodFilePath, p ∉ s0 := by
    intro p hp
    rcases List.mem_map.mp hp with ⟨f, hf, rfl⟩
    exact hfresh f hf
  have hstore : (productCreate body files save now s0).2.2 = s0 := by
    unfold productCreate
    rw [hv]
    cases save with
    | ok => exact absurd rfl hsave
    | dbError =>
      simp only []
      rw [← List.foldl_map prodFilePath unlinkCaught files (s0 ++ files.map prodFilePath)]
      exact foldl_unlink_restore (files.map prodFilePath) s0 hpathsnd hpathsfresh
    | timeout =>
      simp only []
      rw [← List.foldl_map prodFilePath unlinkCaught files (s0 ++ files.map prodFilePath)]
      exact foldl_unlink_restore (files.map prodFilePath) s0 hpathsnd hpathsfresh
  refine ⟨?_, ?_, hstore, ?_⟩
  · unfold productCreate
    rw [hv]
    cases save with
    | ok => exact absurd rfl hsave
    | dbError => rfl
    | timeout => rfl
  · unfold productCreate
    rw [hv]
    cases save with
    | ok => exact absurd rfl hsave
    | dbError => rfl
    | timeout => rfl
  · intro f hf
    rw [hstore]
    exact hfresh f hf

/-- Witness for C4: a timeout after two stored files answers 504 and
leaves the store exactly as before the request. -/
theorem create_failure_compensation_witness :
    (productCreate prodBodyOk ["f1.jpg", "f2.jpg"] .timeout 5 []).1 = 504 ∧
    (productCreate prodBodyOk ["f1.jpg", "f2.jpg"] .timeout 5 []).2.1 = none ∧
    (productCreate prodBodyOk ["f1.jpg", "f2.jpg"] .timeout 5 []).2.2 = [] := by
  have h := create_failure_compensation prodBodyOk ["f1.jpg", "f2.jpg"] .timeout 5 []
    (by decide) (by decide) (by decide) (by decide)
  exact ⟨by rw [h.1]; rfl, h.2.1, h.2.2.1⟩

/-- The product of recency rank `i` (rank 1 is the most recent):
`createdAt = 100 - i`. -/
def mkProd (i : Nat) : ProductRec :=
  { title := "p", tagline := none, price := 1, category := "c", description := "d"
    features := [], specifications := [], tags := []
    images := [], createdAt := 100 - i, updatedAt := 0 }

/-- Fifteen records of ranks 1..15. -/
def recs15 : List ProductRec := (List.range 15).map (fun i => mkProd (i + 1))

/-- Claim C6: paginated listing.  Without a category filter the
response slices the records sorted by `createdAt` descending (a sorted
permutation of the snapshot), skipping `(page-1)*limit`, reports the
snapshot's total, and computes `totalPages = ceil(total/limit)` — it is
the least page count that fits all records.  The count and the slice
are independent reads of the same snapshot, so the response does not
depend on their completion order.  Concretely, page 2 with limit 10
over 15 records returns the records of ranks 11–15 with `totalPages =
2`; the blog listing follows the same pattern over `date`. -/
theorem paginated_listing_correct :
    (∀ (records : List ProductRec) (page limit : Nat), 1 ≤ page → 1 ≤ limit →
      (productList records none page limit).items
        = ((sortDescBy (fun r => r.createdAt) records).drop ((page - 1) * limit)).take limit ∧
      (productList records none page limit).currentPage = page ∧
      (productList records none page limit).total = records.length ∧
      (sortDescBy (fun r => r.createdAt) records).Perm records ∧
      (sortDescBy (fun r => r.createdAt) records).Pairwise
        (fun a b => b.createdAt ≤ a.createdAt) ∧
      records.length ≤ (productList records none page limit).totalPages * limit ∧
      (productList records none page limit).totalPages * limit < records.length + limit) ∧
    (productList recs15 none 2 10).items
      = [mkProd 11, mkProd 12, mkProd 13, mkProd 14, mkProd 15] ∧
    (productList recs15 none 2 10).totalPages = 2 ∧
    (productList recs15 none 2 10).total = 15 ∧
    (∀ (records : List BlogRec) (page limit : Nat), 1 ≤ limit →
      (blogList records page limit).items
        = ((sortDescBy (fun r => r.date) records).drop ((page - 1) * limit)).take limit ∧
      (blogList records page limit).total = records.length ∧
      records.length ≤ (blogList records page limit).totalPages * limit) := by
  refine ⟨?_, by decide, by decide, by decide, ?_⟩
  · intro records page limit hp hl
    refine ⟨rfl, rfl, rfl, sortDescBy_perm _ records, sortDescBy_sorted _ records, ?_, ?_⟩
    · exact le_ceilPages_mul records.length limit hl
    · exact ceilPages_mul_lt records.length limit hl
  · intro records page limit hl
    exact ⟨rfl, rfl, le_ceilPages_mul records.length limit hl⟩

/-- Witness for C6: the universal part applied to the fifteen-record
snapshot at page 2, limit 10. -/
theorem paginated_listing_correct_witness :
    (productList recs15 none 2 10).total = 15 ∧
    15 ≤ (productList recs15 none 2 10).totalPages * 10 := by
  have h := paginated_listing_correct.1 recs15 2 10 (by decide) (by decide)
  refine ⟨h.2.2.1.trans (by decide), ?_⟩
  have hle := h.2.2.2.2.2.1
  have hlen : recs15.length = 15 := by decide
  rwa [hlen] at hle

/-- Claim C9: Cloudinary update, explicit deletions.  For a found
record and a valid body, the update succeeds (200) whatever the destroy
outcomes; the saved image list is exactly the old list minus the
references whose id was marked AND whose destroy succeeded, plus the
new uploads — the per-id attempts are independent, so one failure
aborts neither the other deletions nor the update.  In particular a
reference whose destroy failed is kept, and one whose destroy succeeded
is removed. -/
theorem cloud_update_deleted_images_best_effort :
    ∀ (p : CloudRec) (body : CloudBody) (ids : List String) (uploads : List CloudImage)
      (ok : String → Bool) (now : Nat) (s0 : CloudStore),
      validateProduct body.title body.price body.description = none →
      (productUpdateCloud (some p) body (some ids) uploads ok true now s0).1 = 200 ∧
      ((productUpdateCloud (some p) body (some ids) uploads ok true now s0).2.1).map
          CloudRec.images
        = some (p.images.filter
            (fun r => !(ids.contains r.public_id && ok r.public_id)) ++ uploads) ∧
      (∀ r ∈ p.images, ok r.public_id = false →
        r ∈ p.images.filter (fun r => !(ids.contains r.public_id && ok r.public_id))) ∧
      (∀ r ∈ p.images, ids.contains r.public_id = true → ok r.public_id = true →
        r ∉ p.images.filter (fun r => !(ids.contains r.public_id && ok r.public_id))) := by
  intro p body ids uploads ok now s0 hv
  have hchar := destroyMarked_fold_images ok ids (s0, p.images)
  refine ⟨?_, ?_, ?_, ?_⟩
  · unfold productUpdateCloud
    rw [hv]
    rfl
  · unfold productUpdateCloud
    rw [hv]
    simp only []
    rw [hchar]
    simp
  · intro r hr hok
    rw [List.mem_filter]
    refine ⟨hr, ?_⟩
    simp [hok]
  · intro r hr hc hok
    rw [List.mem_filter]
    intro hcon
    have := hcon.2
    rw [hc, hok] at this
    exact Bool.noConfusion this

/-- Witness for C9: marking `pidA` and `pidB` with only `pidA`-s
destroy succeeding keeps `pidB` referenced, drops `pidA`, and the
update still answers 200. -/
theorem cloud_update_deleted_images_best_effort_witness :
    (productUpdateCloud (some cloudRecAB) cloudBodyOk (some ["pidA", "pidB"]) []
        destroyOkA true 9 ["pidA", "pidB"]).1 = 200 ∧
    ((productUpdateCloud (some cloudRecAB) cloudBodyOk (some ["pidA", "pidB"]) []
        destroyOkA true 9 ["pidA", "pidB"]).2.1).map CloudRec.images
      = some [⟨"uB", "pidB"⟩] := by
  have h := cloud_update_deleted_images_best_effort cloudRecAB cloudBodyOk
    ["pidA", "pidB"] [] destroyOkA 9 ["pidA", "pidB"] (by decide)
  refine ⟨h.1, ?_⟩
  rw [h.2.1]
  decide

/-- Claim C1 counterexample: the Cloudinary update uploads the new
files before saving and rolls nothing back on a save failure.  With one
new upload and a failing save, the response is 500, the persisted
record is still the old one, and the uploaded asset `pidN` sits in the
Media Store referenced by nothing — an orphaned file, violating the
invariant as stated. -/
theorem cloud_update_save_failure_orphans_upload :
    (productUpdateCloud (some cloudRecAB) cloudBodyOk none [⟨"uN", "pidN"⟩] okAll false 9
        ["pidA", "pidB"]).1 = 500 ∧
    (productUpdateCloud (some cloudRecAB) cloudBodyOk none [⟨"uN", "pidN"⟩] okAll false 9
        ["pidA", "pidB"]).2.1 = some cloudRecAB ∧
    "pidN" ∈ (productUpdateCloud (some cloudRecAB) cloudBodyOk none [⟨"uN", "pidN"⟩] okAll
        false 9 ["pidA", "pidB"]).2.2 ∧
    (∀ r ∈ cloudRecAB.images, r.public_id ≠ "pidN") := by
  exact ⟨by decide, by decide, by decide, by decide⟩

/-- Claim C1 (amended): the upload-lifecycle invariant holds for the
operations that complete successfully and for the compensated local
create failure: after a successful blog update every stored reference
has its file and every uploaded file is referenced; after a successful
local create the record references exactly the uploaded files, all
present; after a failed local create no record exists and every
uploaded (fresh, distinct) file is gone; after a successful Cloudinary
update every stored reference has its asset and every upload is
referenced.  (It fails on the Cloudinary update's save-failure path —
see the counterexample — and on validation failures of multipart
requests.) -/
theorem upload_lifecycle_invariant_amended :
    (∀ (blog : BlogRec) (t c cat : Option String) (files : List String) (s0 : Store),
      validateBlogPost t c = none →
      (∀ img ∈ blog.images, joinPublic img ∈ s0) →
      (blogUpdate (some blog) t c cat files true s0).1 = 200 ∧
      (∀ rec, (blogUpdate (some blog) t c cat files true s0).2.1 = some rec →
        (∀ img ∈ rec.images, joinPublic img ∈ (blogUpdate (some blog) t c cat files true s0).2.2) ∧
        (∀ f ∈ files, blogRef f ∈ rec.images))) ∧
    (∀ (body : ProductBody) (files : List String) (now : Nat) (s0 : Store),
      validateProduct body.title body.price body.description = none →
      (productCreate body files .ok now s0).1 = 201 ∧
      (∀ rec, (productCreate body files .ok now s0).2.1 = some rec →
        rec.images = files.map prodRef ∧
        (∀ f ∈ files, prodFilePath f ∈ (productCreate body files .ok now s0).2.2))) ∧
    (∀ (body : ProductBody) (files : List String) (save : SaveOutcome) (now : Nat) (s0 : Store),
      validateProduct body.title body.price body.description = none →
      save ≠ .ok → files.Nodup → (∀ f ∈ files, prodFilePath f ∉ s0) →
      (productCreate body files save now s0).2.1 = none ∧
      (∀ f ∈ files, prodFilePath f ∉ (productCreate body files save now s0).2.2)) ∧
    (∀ (p : CloudRec) (body : CloudBody) (di : Option (List String))
        (uploads : List CloudImage) (ok : String → Bool) (now : Nat) (s0 : CloudStore),
      validateProduct body.title body.price body.description = none →
      (∀ r ∈ p.images, r.public_id ∈ s0) →
      (productUpdateCloud (some p) body di uploads ok true now s0).1 = 200 ∧
      (∀ q, (productUpdateCloud (some p) body di uploads ok true now s0).2.1 = some q →
        (∀ r ∈ q.images,
          r.public_id ∈ (productUpdateCloud (some p) body di uploads ok true now s0).2.2) ∧
        (∀ u ∈ uploads, u ∈ q.images))) := by
  refine ⟨?_, ?_, ?_, ?_⟩
  · -- blog update, successful save
    intro blog t c cat files s0 hv hOld
    have hres : blogUpdate (some blog) t c cat files true s0
        = (200, some { blog with
            title := t.getD ""
            content := c.getD ""
            category := cat.getD ""
            readTime := toString (readTimeMinutes (c.getD "")) ++ " min read"
            images := blog.images ++ files.map blogRef },
           s0 ++ files.map blogFilePath) := by
      unfold blogUpdate
      rw [hv]
      simp only []
      rw [cleanup_superset_noop]
      rfl
    rw [hres]
    refine ⟨rfl, ?_⟩
    intro rec hrec
    have hrec2 := Option.some.inj hrec
    constructor
    · intro img himg
      rw [← hrec2] at himg
      simp only [] at himg
      rcases List.mem_append.mp himg with hOldm | hNewm
      · exact List.mem_append_left _ (hOld img hOldm)
      · rcases List.mem_map.mp hNewm with ⟨f, hf, rfl⟩
        apply List.mem_append_right
        have hjoin : joinPublic (blogRef f) = blogFilePath f := rfl
        rw [hjoin]
        exact List.mem_map_of_mem _ hf
    · intro f hf
      rw [← hrec2]
      simp only []
      exact List.mem_append_right _ (List.mem_map_of_mem _ hf)
  · -- local create, successful save
    intro body files now s0 hv
    have hres : productCreate body files .ok now s0
        = (201, some {
            title := body.title.getD ""
            tagline := body.tagline
            price := jsNumVal body.price
            category := body.category.getD ""
            description := body.description.getD ""
            features := splitTrim body.features
            specifications := splitTrim body.specifications
            tags := splitTrim body.tags
            images := files.map prodRef
            createdAt := now
            updatedAt := now }, s0 ++ files.map prodFilePath) := by
      unfold productCreate
      rw [hv]
    rw [hres]
    refine ⟨rfl, ?_⟩
    intro rec hrec
    have hrec2 := Option.some.inj hrec
    constructor
    · rw [← hrec2]
    · intro f hf
      exact List.mem_append_right _ (List.mem_map_of_mem _ hf)
  · -- local create, failed save: compensation
    intro body files save now s0 hv hsave hnd hfresh
    have hpathsnd : (files.map prodFilePath).Nodup := by
      refine hnd.map ?_
      intro a b h
      simpa [prodFilePath] using h
    have hpathsfresh : ∀ q ∈ files.map prodFilePath, q ∉ s0 := by
      intro q hq
      rcases List.mem_map.mp hq with ⟨f, hf, rfl⟩
      exact hfresh f hf
    have hstore : (productCreate body files save now s0).2.2 = s0 := by
      unfold productCreate
      rw [hv]
      cases save with
      | ok => exact absurd rfl hsave
      | dbError =>
        simp only []
        rw [← List.foldl_map prodFilePath unlinkCaught files (s0 ++ files.map prodFilePath)]
        exact foldl_unlink_restore (files.map prodFilePath) s0 hpathsnd hpathsfresh
      | timeout =>
        simp only []
        rw [← List.foldl_map prodFilePath unlinkCaught files (s0 ++ files.map prodFilePath)]
        exact foldl_unlink_restore (files.map prodFilePath) s0 hpathsnd hpathsfresh
    refine ⟨?_, ?_⟩
    · unfold productCreate
      rw [hv]
      cases save with
      | ok => exact absurd rfl hsave
      | dbError => rfl
      | timeout => rfl
    · intro f hf
      rw [hstore]
      exact hfresh f hf
  · -- Cloudinary update, successful save
    intro p body di uploads ok now s0 hv hOld
    cases di with
    | none =>
      have hres : productUpdateCloud (some p) body none uploads ok true now s0
          = (200, some { p with
              title := body.title.getD ""
              tagline := body.tagline
              price := jsNumVal body.price
              category := body.category.getD ""
              description := body.description.getD ""
              features := body.features.getD []
              specifications := body.specifications.getD []
              tags := body.tags.getD []
              images := p.images ++ uploads
              updatedAt := now }, s0 ++ uploads.map (fun u => u.public_id)) := by
        unfold productUpdateCloud
        rw [hv]
        rfl
      rw [hres]
      refine ⟨rfl, ?_⟩
      intro q hq
      have hq2 := Option.some.inj hq
      constructor
      · intro r hr
        rw [← hq2] at hr
        simp only [] at hr
        rcases List.mem_append.mp hr with hOldm | hUp
        · exact List.mem_append_left _ (hOld r hOldm)
        · exact List.mem_append_right _ (List.mem_map_of_mem _ hUp)
      · intro u hu
        rw [← hq2]
        simp only []
        exact List.mem_append_right _ hu
    | some ids =>
      have hinv := destroyMarked_fold_refsOK ok ids (s0, p.images) hOld
      have hres : productUpdateCloud (some p) body (some ids) uploads ok true now s0
          = (200, some { p with
              title := body.title.getD ""
              tagline := body.tagline
              price := jsNumVal body.price
              category := body.category.getD ""
              description := body.description.getD ""
              features := body.features.getD []
              specifications := body.specifications.getD []
              tags := body.tags.getD []
              images := (ids.foldl (destroyMarked ok) (s0, p.images)).2 ++ uploads
              updatedAt := now },
            (ids.foldl (destroyMarked ok) (s0, p.images)).1
              ++ uploads.map (fun u => u.public_id)) := by
        unfold productUpdateCloud
        rw [hv]
        rfl
      rw [hres]
      refine ⟨rfl, ?_⟩
      intro q hq
      have hq2 := Option.some.inj hq
      constructor
      · intro r hr
        rw [← hq2] at hr
        simp only [] at hr
        rcases List.mem_append.mp hr with hKept | hUp
        · exact List.mem_append_left _ (hinv r hKept)
        · exact List.mem_append_right _ (List.mem_map_of_mem _ hUp)
      · intro u hu
        rw [← hq2]
        simp only []
        exact List.mem_append_right _ hu

/-- Witness for the amended C1: the concrete blog update on
`[a,b,c]` + `d.jpg` and the concrete local create with two files. -/
theorem upload_lifecycle_invariant_amended_witness :
    (blogUpdate (some blogRecABC) (some "ttt") descTen (some "x") ["d.jpg"] true
        storeBlogABC).1 = 200 ∧
    (productCreate prodBodyOk ["f1.jpg", "f2.jpg"] .ok 5 []).1 = 201 ∧
    (∀ f ∈ ["f1.jpg", "f2.jpg"],
      prodFilePath f ∉ (productCreate prodBodyOk ["f1.jpg", "f2.jpg"] .timeout 5 []).2.2) ∧
    (productUpdateCloud (some cloudRecAB) cloudBodyOk none [⟨"uN", "pidN"⟩] okAll true 9
        ["pidA", "pidB"]).1 = 200 :=
  ⟨(upload_lifecycle_invariant_amended.1 blogRecABC (some "ttt") descTen (some "x")
      ["d.jpg"] storeBlogABC (by decide) (by decide)).1,
   (upload_lifecycle_invariant_amended.2.1 prodBodyOk ["f1.jpg", "f2.jpg"] 5 []
      (by decide)).1,
   (upload_lifecycle_invariant_amended.2.2.1 prodBodyOk ["f1.jpg", "f2.jpg"] .timeout 5 []
      (by decide) (by decide) (by decide) (by decide)).2,
   (upload_lifecycle_invariant_amended.2.2.2 cloudRecAB cloudBodyOk none [⟨"uN", "pidN"⟩]
      okAll 9 ["pidA", "pidB"] (by decide) (by decide)).1⟩

end MyBackend
